import Mathlib

/-!
Verification of the omegga-rs JSON-RPC correlation layer (`src/lib.rs`).

The file shallowly embeds the crate's data model and operations:
the `rpc` message model (the module `rpc` is declared in `lib.rs` but its
source is not part of the provided tree, so its pure data declarations are
modelled from the spec), the `Omegga` handle with its atomic request-id
counter and correlation table (`awaiter_txs`, a DashMap), the `request`
operation, the dispatch loop spawned by `Omegga::spawn`, and the
`ResponseAwaiter` future's `poll` classification.

Concurrency is embedded sequentially: each DashMap operation and each loop
iteration is one atomic step on an explicit state record, and the tokio
oneshot channels are modelled by numeric tokens plus an explicit record of
which tokens were delivered to and which receiving halves were dropped.
-/

set_option autoImplicit false

namespace Rpc

/-- Modelled from the spec: a JSON value (`serde_json::Value`), the opaque
payload type carried by `params`, `result` and `error.data`.  No operation
of the core inspects its structure; it is carried through unchanged. -/
inductive Value where
  | null
  | bool (b : Bool)
  | num (n : Int)
  | str (s : String)
  | arr (elems : List Value)
  | obj (fields : List (String × Value))

/-- Modelled from the spec: `rpc::RequestId`, a variant of signed integer
or string, used only as a correlation key. -/
inductive RequestId where
  | int (i : Int)
  | str (s : String)
deriving DecidableEq, Repr

/-- Modelled from the spec: `rpc::Error`
`{code: signed integer, message: string, data: optional value}`. -/
structure Error where
  code : Int
  message : String
  data : Option Value

/-- Modelled from the spec: `rpc::Message`, the tagged union of
Request / Response / Notification. -/
inductive Message where
  | request (id : RequestId) (method : String) (params : Option Value)
  | response (id : RequestId) (result : Option Value) (error : Option Error)
  | notification (method : String) (params : Option Value)

/-- Modelled from the spec: `rpc::Response`, the struct delivered through a
pending entry's oneshot channel (`rpc::Response { id, result, error }` as
built by the dispatch loop in `lib.rs`). -/
structure Response where
  id : RequestId
  result : Option Value
  error : Option Error

/-- Whether a `Message` is the `Response` variant (the dispatch loop's
classification: the `rpc::Message::Response { .. }` match arm). -/
def Message.isResponse : Message → Bool
  | .response _ _ _ => true
  | _ => false

end Rpc

/-- The error type `tokio::sync::oneshot::error::RecvError`: returned when
the sending half of a oneshot channel is dropped without ever sending. -/
inductive RecvError where
  | mk
deriving DecidableEq, Repr

/-- The type `std::task::Poll`. -/
inductive Poll (α : Type) where
  | ready (value : α)
  | pending

/-- The enum `omegga::Response` (lib.rs lines 160 to 170): the classified
outcome a `ResponseAwaiter` resolves to. -/
inductive Response where
  | ok (value : Option Rpc.Value)
  | rpcError (error : Rpc.Error)
  | recvError (error : RecvError)

/-- The body of `ResponseAwaiter::poll` (lib.rs lines 140 to 154): given the
result of polling the wrapped oneshot receiver, classify it.  A received
`rpc::Response` with an error becomes `RpcError`, one without becomes `Ok`
carrying the result field; a channel error becomes `RecvError`; pending
passes through. -/
def ResponseAwaiter.poll : Poll (Except RecvError Rpc.Response) → Poll Response
  | .ready (.ok response) =>
    .ready (match response.error with
      | some e => .rpcError e
      | none => .ok response.result)
  | .ready (.error error) => .ready (.recvError error)
  | .pending => .pending

/-- A token identifying one tokio oneshot channel allocated by `request`;
the same token stands for the sending and the receiving half. -/
abbrev ChanId := Nat

/-- The observable state of one `Omegga` instance together with its process
environment: the correlation table and atomic counter (the two fields of
the `Omegga` struct), the fresh-channel supply, the lines emitted on stdout
by the Writer (recorded as messages, since encoding is the black-box
bijection of the spec), the outbound event stream fed by the dispatch loop,
the values delivered through oneshot senders, and the set of oneshot
receivers that have been dropped. -/
structure OmeggaState where
  awaiter_txs : List (Rpc.RequestId × ChanId)
  request_id : Int
  nextChan : ChanId
  written : List Rpc.Message
  events : List Rpc.Message
  delivered : List (ChanId × Rpc.Response)
  droppedRxs : List ChanId

/-- Lookup in the correlation table (`DashMap` keyed by `rpc::RequestId`). -/
def tableLookup : List (Rpc.RequestId × ChanId) → Rpc.RequestId → Option ChanId
  | [], _ => none
  | (k, v) :: rest, id => if k = id then some v else tableLookup rest id

/-- Removal from the correlation table (the `entry.remove_entry()` call of
the dispatch loop, and the removal half of `DashMap::insert`). -/
def tableErase : List (Rpc.RequestId × ChanId) → Rpc.RequestId → List (Rpc.RequestId × ChanId)
  | [], _ => []
  | (k, v) :: rest, id =>
    if k = id then tableErase rest id else (k, v) :: tableErase rest id

/-- The operation `DashMap::insert`: stores the sender under the key,
replacing any existing entry for that key; the replaced value is returned
to the caller, which in `Omegga::request` discards it. -/
def tableInsert (t : List (Rpc.RequestId × ChanId)) (id : Rpc.RequestId) (tx : ChanId) :
    List (Rpc.RequestId × ChanId) :=
  (id, tx) :: tableErase t id

/-- The constructor `Omegga::new` (lib.rs lines 32 to 37): empty table,
counter at -1; the rest of the environment starts empty. -/
def Omegga.new : OmeggaState :=
  { awaiter_txs := []
    request_id := -1
    nextChan := 0
    written := []
    events := []
    delivered := []
    droppedRxs := [] }

/-- Wrap an integer into the `i32` range, as Rust atomic arithmetic does
(the bounds are 2 to the 31st and 2 to the 32nd). -/
def wrapI32 (x : Int) : Int := (x + 2147483648) % 4294967296 - 2147483648

/-- The call `self.request_id.fetch_sub(-1, Ordering::SeqCst)` (lib.rs line
110): returns the previous counter value and stores the wrapped result of
subtracting -1 from it. -/
def Omegga.fetchNextId (s : OmeggaState) : Int × OmeggaState :=
  (s.request_id, { s with request_id := wrapI32 (s.request_id - (-1)) })

/-- The method `Omegga::write` (lib.rs lines 73 to 75): encode the message
and emit exactly one line on stdout.  Encoding is the black-box bijection
of the spec, so the emitted line is recorded as the message itself. -/
def Omegga.write (message : Rpc.Message) (s : OmeggaState) : OmeggaState :=
  { s with written := s.written ++ [message] }

/-- The method `Omegga::write_request` (lib.rs lines 97 to 104). -/
def Omegga.write_request (id : Rpc.RequestId) (method : String)
    (params : Option Rpc.Value) (s : OmeggaState) : OmeggaState :=
  Omegga.write (.request id method params) s

/-- The method `Omegga::write_notification` (lib.rs lines 78 to 80). -/
def Omegga.write_notification (method : String) (params : Option Rpc.Value)
    (s : OmeggaState) : OmeggaState :=
  Omegga.write (.notification method params) s

/-- The method `Omegga::write_response` (lib.rs lines 83 to 90). -/
def Omegga.write_response (id : Rpc.RequestId) (params : Option Rpc.Value)
    (error : Option Rpc.Error) (s : OmeggaState) : OmeggaState :=
  Omegga.write (.response id params error) s

/-- The call `oneshot::channel::<rpc::Response>()` (lib.rs line 116):
allocate a fresh channel and hand out its two halves as one token. -/
def Omegga.openChannel (s : OmeggaState) : ChanId × OmeggaState :=
  (s.nextChan, { s with nextChan := s.nextChan + 1 })

/-- The call `self.awaiter_txs.insert(rpc::RequestId::Int(id), tx)` (lib.rs
line 119): insert the sender into the correlation table. -/
def Omegga.registerAwaiter (id : Rpc.RequestId) (tx : ChanId) (s : OmeggaState) :
    OmeggaState :=
  { s with awaiter_txs := tableInsert s.awaiter_txs id tx }

/-- The method `Omegga::request` (lib.rs lines 108 to 123), step for step in
source order: fetch the next id (line 110), write the request line (line
113), open a oneshot channel (line 116), insert the sender into the table
(line 119), and return the awaiter, identified by its receiver token. -/
def Omegga.request (method : String) (params : Option Rpc.Value) (s : OmeggaState) :
    OmeggaState × ChanId :=
  let (id, s1) := Omegga.fetchNextId s
  let s2 := Omegga.write_request (.int id) method params s1
  let (rx, s3) := Omegga.openChannel s2
  let s4 := Omegga.registerAwaiter (.int id) rx s3
  (s4, rx)

/-- Dropping a `ResponseAwaiter` (lib.rs line 135): the struct declares no
`Drop` implementation, so dropping it runs no crate code; only the wrapped
oneshot receiver is dropped, closing the channel.  In particular the
correlation table is not touched. -/
def Omegga.dropAwaiter (rx : ChanId) (s : OmeggaState) : OmeggaState :=
  { s with droppedRxs := rx :: s.droppedRxs }

/-- The call `sender.send(rpc::Response \x7b id, result, error \x7d)` (lib.rs
line 59): deliver the value through the oneshot channel unless its
receiving half was already dropped; the returned `Result` is discarded by
the dispatch loop either way (`let _ =`). -/
def oneshotSend (tx : ChanId) (r : Rpc.Response) (s : OmeggaState) : OmeggaState :=
  if tx ∈ s.droppedRxs then s
  else { s with delivered := s.delivered ++ [(tx, r)] }

/-- One iteration of the dispatch loop body (lib.rs lines 46 to 66) on a
line that has already been read.  Decoding (`serde_json::from_str`) is the
black box of the spec, so the iteration takes the decode result: `none` is
a decode failure (the `Err(_) => continue` arm); a decoded `Response` is
matched against the correlation table through the `Entry` API, removing the
entry and sending through it when occupied; every other message is
forwarded unchanged to the event stream (`tx.send(message)`). -/
def Omegga.dispatchLine (decoded : Option Rpc.Message) (s : OmeggaState) : OmeggaState :=
  match decoded with
  | none => s
  | some message =>
    match message with
    | .response id result error =>
      match tableLookup s.awaiter_txs id with
      | some tx =>
        oneshotSend tx { id := id, result := result, error := error }
          { s with awaiter_txs := tableErase s.awaiter_txs id }
      | none => s
    | _ => { s with events := s.events ++ [message] }

/-- The dispatch loop spawned by `Omegga::spawn` (lib.rs lines 43 to 68),
run over a finite prefix of inbound lines, each given by its decode
result. -/
def Omegga.dispatchLoop (lines : List (Option Rpc.Message)) (s : OmeggaState) : OmeggaState :=
  lines.foldl (fun st l => Omegga.dispatchLine l st) s

/-- The state after `n` successive calls of `Omegga::request` starting from
`Omegga::new()` (the method and params play no role for the generator). -/
def Omegga.afterRequests : Nat → OmeggaState
  | 0 => Omegga.new
  | n + 1 => (Omegga.request "m" none (Omegga.afterRequests n)).1

/-- The integer RequestId returned by call number `n` (counting from 0) of
that sequence: `request` reads the counter with `fetch_sub` (lib.rs line
110) and uses the value stored before the call, which is the counter field
of the state after `n` calls. -/
def Omegga.nthRequestId (n : Nat) : Int := (Omegga.afterRequests n).request_id

/-- A sample state used to instantiate theorems with hypotheses: a fresh
instance whose table holds one live entry mapping id 0 to sender token 5. -/
def sampleState : OmeggaState := { Omegga.new with awaiter_txs := [(.int 0, 5)] }

/-! ### Supporting lemmas -/

theorem tableLookup_tableErase_self (t : List (Rpc.RequestId × ChanId)) (id : Rpc.RequestId) :
    tableLookup (tableErase t id) id = none := by
  induction t with
  | nil => rfl
  | cons p rest ih =>
    obtain ⟨k, v⟩ := p
    by_cases hk : k = id
    · simpa [tableErase, hk] using ih
    · simp [tableErase, tableLookup, hk, ih]

theorem dispatchLine_matched (s : OmeggaState) (id : Rpc.RequestId) (tx : ChanId)
    (result : Option Rpc.Value) (error : Option Rpc.Error)
    (h : tableLookup s.awaiter_txs id = some tx) :
    Omegga.dispatchLine (some (.response id result error)) s
      = oneshotSend tx { id := id, result := result, error := error }
          { s with awaiter_txs := tableErase s.awaiter_txs id } := by
  simp [Omegga.dispatchLine, h]

theorem dispatchLine_unmatched (s : OmeggaState) (id : Rpc.RequestId)
    (result : Option Rpc.Value) (error : Option Rpc.Error)
    (h : tableLookup s.awaiter_txs id = none) :
    Omegga.dispatchLine (some (.response id result error)) s = s := by
  simp [Omegga.dispatchLine, h]

theorem oneshotSend_awaiter_txs (tx : ChanId) (r : Rpc.Response) (s : OmeggaState) :
    (oneshotSend tx r s).awaiter_txs = s.awaiter_txs := by
  unfold oneshotSend; split <;> rfl

theorem oneshotSend_events (tx : ChanId) (r : Rpc.Response) (s : OmeggaState) :
    (oneshotSend tx r s).events = s.events := by
  unfold oneshotSend; split <;> rfl

/-! ### Claim theorems -/

/-- C2: through `ResponseAwaiter::poll`, a delivered Response carrying no
Error resolves to `Ok` with the result value; one carrying an Error
resolves to `RpcError` with that error; and when the sending half was
destroyed without sending, the awaiter resolves to the `RecvError` outcome,
which is distinct from both of the other outcomes. -/
theorem awaiter_outcome_classification (id : Rpc.RequestId)
    (result : Option Rpc.Value) (e : Rpc.Error) :
    ResponseAwaiter.poll (.ready (.ok { id := id, result := result, error := none }))
      = .ready (.ok result)
    ∧ ResponseAwaiter.poll (.ready (.ok { id := id, result := result, error := some e }))
      = .ready (.rpcError e)
    ∧ ResponseAwaiter.poll (.ready (.error .mk)) = .ready (.recvError .mk)
    ∧ (∀ v, Response.recvError .mk ≠ Response.ok v)
    ∧ (∀ e2, Response.recvError .mk ≠ Response.rpcError e2) := by
  refine ⟨rfl, rfl, rfl, fun v h => ?_, fun e2 h => ?_⟩ <;> cases h

/-- C10: when a delivered Response carries both a result and an error,
`ResponseAwaiter::poll` matches on the error field first, so the awaiter
resolves to `RpcError` with the error and the result value is discarded. -/
theorem error_field_takes_precedence (id : Rpc.RequestId) (v : Rpc.Value) (e : Rpc.Error) :
    ResponseAwaiter.poll (.ready (.ok { id := id, result := some v, error := some e }))
      = .ready (.rpcError e) := rfl

/-- C7: a line that fails to decode is discarded by the dispatch loop: the
iteration leaves the whole state (table, events, deliveries) unchanged, and
running the loop on such a line followed by further lines is the same as
running it on the further lines alone. -/
theorem decode_failure_is_discarded (s : OmeggaState) (rest : List (Option Rpc.Message)) :
    Omegga.dispatchLine none s = s
    ∧ Omegga.dispatchLoop (none :: rest) s = Omegga.dispatchLoop rest s :=
  ⟨rfl, rfl⟩

/-- C1 (refuting evidence, from a fresh instance): after the
`write_request` step of `Omegga::request` (lib.rs line 113) the request
line has already been emitted while the correlation table is still empty;
`request` factors as registration applied after the write (lib.rs line
119), so the table entry does not exist before the line is written. -/
theorem request_line_written_before_entry_exists :
    (Omegga.write_request (.int (-1)) "ping" none (Omegga.fetchNextId Omegga.new).2).written
      = [Rpc.Message.request (.int (-1)) "ping" none]
    ∧ (Omegga.write_request (.int (-1)) "ping" none (Omegga.fetchNextId Omegga.new).2).awaiter_txs
      = []
    ∧ Omegga.request "ping" none Omegga.new
      = (Omegga.registerAwaiter (.int (-1)) 0
          (Omegga.openChannel
            (Omegga.write_request (.int (-1)) "ping" none (Omegga.fetchNextId Omegga.new).2)).2,
        0) :=
  ⟨rfl, rfl, rfl⟩

/-- C5 (refuting evidence): `ResponseAwaiter` has no `Drop` implementation,
so after issuing a request on a fresh instance and dropping the returned
awaiter, the correlation table still contains the entry for its id. -/
theorem drop_awaiter_leaves_entry_in_table :
    tableLookup
      (Omegga.dropAwaiter (Omegga.request "ping" none Omegga.new).2
        (Omegga.request "ping" none Omegga.new).1).awaiter_txs
      (.int (-1)) = some 0 := rfl

/-- C8 counterexample: starting from a state whose table holds a live entry
for id 5 (sender token 7) and whose counter is at 5, `Omegga::request`
registers id 5 again: `DashMap::insert` silently replaces the old entry
with the new sender (token 0) and no rejection or assertion occurs. -/
theorem register_overwrites_without_rejection :
    (Omegga.request "m" none
      { Omegga.new with awaiter_txs := [(.int 5, 7)], request_id := 5 }).1.awaiter_txs
      = [(.int 5, 0)] := rfl

/-- C8 amended: registering a Pending Request Entry under a RequestId that
already has a live entry silently overwrites that entry (the previous
sender is discarded); no rejection or assertion occurs.  Uniqueness of live
entries rests solely on the ID generator. -/
theorem register_replaces_existing_entry (s : OmeggaState) (id : Rpc.RequestId)
    (tx tx0 : ChanId) (h : tableLookup s.awaiter_txs id = some tx0) :
    tableLookup (Omegga.registerAwaiter id tx s).awaiter_txs id = some tx := by
  simp [Omegga.registerAwaiter, tableInsert, tableLookup]

/-- Witness for the amended C8 theorem at a concrete state: id 5 is live
with sender 7, and registering sender 9 under id 5 yields sender 9. -/
theorem register_replaces_existing_entry_witness :
    tableLookup ({ Omegga.new with awaiter_txs := [(.int 5, 7)] }).awaiter_txs (.int 5)
      = some 7
    ∧ tableLookup
        (Omegga.registerAwaiter (.int 5) 9
          { Omegga.new with awaiter_txs := [(.int 5, 7)] }).awaiter_txs (.int 5)
      = some 9 :=
  ⟨rfl, register_replaces_existing_entry _ _ 9 7 rfl⟩

/-- The counter step and the emitted line of one `request` call: the call
advances the stored counter by one (wrapped at the i32 boundary) and the
line it writes carries the counter value read before the call. -/
theorem request_counter_step (method : String) (params : Option Rpc.Value)
    (s : OmeggaState) :
    (Omegga.request method params s).1.request_id = wrapI32 (s.request_id - (-1))
    ∧ (Omegga.request method params s).1.written
      = s.written ++ [.request (.int s.request_id) method params] :=
  ⟨rfl, rfl⟩

theorem wrapI32_eq_self (x : Int) (h1 : -2147483648 ≤ x) (h2 : x < 2147483648) :
    wrapI32 x = x := by
  unfold wrapI32; omega

theorem nthRequestId_succ (n : Nat) :
    Omegga.nthRequestId (n + 1) = wrapI32 (Omegga.nthRequestId n + 1) := by
  show (Omegga.request "m" none (Omegga.afterRequests n)).1.request_id = _
  rw [(request_counter_step "m" none (Omegga.afterRequests n)).1]
  simp [Omegga.nthRequestId, sub_neg_eq_add]

/-- C3: when the dispatch loop matches a Response to a pending entry, the
entry is removed from the table in the very step that delivers the response
through the channel of the entry, so a second (duplicate or late) Response
carrying the same id finds no entry and leaves the state unchanged. -/
theorem matched_response_delivered_at_most_once (s : OmeggaState)
    (id : Rpc.RequestId) (tx : ChanId)
    (result result2 : Option Rpc.Value) (error error2 : Option Rpc.Error)
    (h : tableLookup s.awaiter_txs id = some tx) :
    tableLookup (Omegga.dispatchLine (some (.response id result error)) s).awaiter_txs id
      = none
    ∧ (tx ∉ s.droppedRxs →
        (Omegga.dispatchLine (some (.response id result error)) s).delivered
          = s.delivered ++ [(tx, { id := id, result := result, error := error })])
    ∧ Omegga.dispatchLine (some (.response id result2 error2))
        (Omegga.dispatchLine (some (.response id result error)) s)
      = Omegga.dispatchLine (some (.response id result error)) s := by
  have hnone :
      tableLookup (Omegga.dispatchLine (some (.response id result error)) s).awaiter_txs id
        = none := by
    rw [dispatchLine_matched s id tx result error h, oneshotSend_awaiter_txs]
    exact tableLookup_tableErase_self _ _
  refine ⟨hnone, ?_, dispatchLine_unmatched _ _ _ _ hnone⟩
  intro hdrop
  rw [dispatchLine_matched s id tx result error h]
  unfold oneshotSend
  split
  · exact absurd (by assumption) hdrop
  · rfl

/-- Witness for the C3 theorem at a concrete state: one live entry maps id
0 to sender 5, a response for id 0 is dispatched, and the three conjuncts
are evaluated there. -/
theorem matched_response_delivered_at_most_once_witness :
    tableLookup sampleState.awaiter_txs (.int 0) = some 5
    ∧ (tableLookup
        (Omegga.dispatchLine (some (.response (.int 0) none none)) sampleState).awaiter_txs
        (.int 0) = none
      ∧ ((5 : ChanId) ∉ sampleState.droppedRxs →
          (Omegga.dispatchLine (some (.response (.int 0) none none)) sampleState).delivered
            = sampleState.delivered ++ [(5, { id := .int 0, result := none, error := none })])
      ∧ Omegga.dispatchLine (some (.response (.int 0) none none))
          (Omegga.dispatchLine (some (.response (.int 0) none none)) sampleState)
        = Omegga.dispatchLine (some (.response (.int 0) none none)) sampleState) :=
  ⟨rfl, matched_response_delivered_at_most_once sampleState (.int 0) 5 none none none none rfl⟩

/-- C6: a Response whose id has no pending entry has no observable effect:
the dispatch iteration returns the state unchanged (no delivery, no event,
same table), and the loop continues with the remaining lines exactly as if
the response had not been read. -/
theorem unmatched_response_has_no_effect (s : OmeggaState) (id : Rpc.RequestId)
    (result : Option Rpc.Value) (error : Option Rpc.Error)
    (rest : List (Option Rpc.Message))
    (h : tableLookup s.awaiter_txs id = none) :
    Omegga.dispatchLine (some (.response id result error)) s = s
    ∧ Omegga.dispatchLoop (some (.response id result error) :: rest) s
      = Omegga.dispatchLoop rest s := by
  have h1 := dispatchLine_unmatched s id result error h
  exact ⟨h1, by simp only [Omegga.dispatchLoop, List.foldl_cons, h1]⟩

/-- Witness for the C6 theorem: a response for the unregistered id 999 is
dispatched against the sample state and nothing changes. -/
theorem unmatched_response_has_no_effect_witness :
    tableLookup sampleState.awaiter_txs (.int 999) = none
    ∧ (Omegga.dispatchLine (some (.response (.int 999) none none)) sampleState = sampleState
      ∧ Omegga.dispatchLoop (some (.response (.int 999) none none) :: []) sampleState
        = Omegga.dispatchLoop [] sampleState) :=
  ⟨rfl, unmatched_response_has_no_effect sampleState (.int 999) none none [] rfl⟩

theorem dispatchLine_events_eq (l : Option Rpc.Message) (s : OmeggaState) :
    (Omegga.dispatchLine l s).events
      = s.events ++ (l.toList.filter fun m => !m.isResponse) := by
  cases l with
  | none => simp [Omegga.dispatchLine]
  | some m =>
    cases m with
    | response id result error =>
      cases htab : tableLookup s.awaiter_txs id with
      | none =>
        simp [dispatchLine_unmatched s id result error htab, Rpc.Message.isResponse]
      | some tx =>
        rw [dispatchLine_matched s id tx result error htab, oneshotSend_events]
        simp [Rpc.Message.isResponse]
    | request id method params =>
      simp [Omegga.dispatchLine, Rpc.Message.isResponse]
    | notification method params =>
      simp [Omegga.dispatchLine, Rpc.Message.isResponse]

/-- C9: running the dispatch loop over any sequence of inbound lines
appends to the event stream exactly the decoded messages that are not
responses (the Requests and Notifications), unchanged and in the order they
were read; nothing else is ever emitted there. -/
theorem events_forwarded_in_order (lines : List (Option Rpc.Message)) (s : OmeggaState) :
    (Omegga.dispatchLoop lines s).events
      = s.events ++ ((lines.filterMap id).filter fun m => !m.isResponse) := by
  induction lines generalizing s with
  | nil => simp [Omegga.dispatchLoop]
  | cons l rest ih =>
    have hstep : Omegga.dispatchLoop (l :: rest) s
        = Omegga.dispatchLoop rest (Omegga.dispatchLine l s) := rfl
    rw [hstep, ih, dispatchLine_events_eq]
    cases l with
    | none => simp
    | some m => cases hm : m.isResponse <;> simp [List.filterMap_cons, List.filter_cons, hm]

/-- C4: starting from `AtomicI32::new(-1)`, each `request` call returns the
stored counter value and advances it by one, so call `n` (counting from 0)
returns the id `n - 1`, giving the sequence -1, 0, 1, 2, …; and any two
back-to-back calls return distinct ids.  Stated for the calls of the
declared progression, that is before the i32 counter wraps. -/
theorem request_id_progression (n : Nat) (h : n ≤ 2147483648) :
    Omegga.nthRequestId n = (n : Int) - 1
    ∧ Omegga.nthRequestId (n + 1) ≠ Omegga.nthRequestId n := by
  have key : ∀ m : Nat, m ≤ 2147483648 → Omegga.nthRequestId m = (m : Int) - 1 := by
    intro m
    induction m with
    | zero => intro _; rfl
    | succ k ih =>
      intro hk
      have hk2 : k ≤ 2147483648 := Nat.le_of_succ_le hk
      rw [nthRequestId_succ, ih hk2, wrapI32_eq_self] <;> push_cast <;> omega
  refine ⟨key n h, ?_⟩
  rw [nthRequestId_succ, key n h]
  unfold wrapI32
  omega

/-- Witness for the C4 theorem at `n = 1`: the second call returns 0 and
the third call returns a different id. -/
theorem request_id_progression_witness :
    (1 : Nat) ≤ 2147483648
    ∧ (Omegga.nthRequestId 1 = (1 : Int) - 1
      ∧ Omegga.nthRequestId 2 ≠ Omegga.nthRequestId 1) :=
  ⟨by norm_num, request_id_progression 1 (by norm_num)⟩
